import Mathlib

/-!
Shallow embedding of the `dfmedia/vast` VAST 2.0 model layer.

The entity declarations (required fields, converter tables, exclusion
groups, semantic validators) and the entity factories are translated from
`src/vast/models/vast_v2.py`; the validator primitives from
`src/vast/validators.py`; the XML entry point from
`src/vast/parsers/xml_parser.py`.

The construction engine itself (`with_checker_converter` /
`check_and_convert`, `Converter`, `SomeOf` in `vast.models.shared`) and the
`validators.validate` / `make_greater_then_validator` helpers are imported
by the model module but their defining file is not part of the sources at
hand; they are modelled from the specification of the construction
engine (presence check, conversion, exclusion groups, semantic validators,
aggregation) and marked `Modelled from the spec:` below.
-/

namespace VastModel

/-- The fixed delivery-mode enumeration, from `vast/models/vast_v2.py`. -/
inductive Delivery where
  | STREAMING
  | PROGRESSIVE
deriving DecidableEq, Repr

/-- The API-framework enumeration, from `vast/models/vast_v2.py`. -/
inductive ApiFramework where
  | VPAID
deriving DecidableEq, Repr

/-- The MIME-type enumeration, from `vast/models/vast_v2.py`. -/
inductive MimeType where
  | MP4
  | JS
  | FLASH
  | WEBM
  | GPP
  | MPEG
deriving DecidableEq, Repr

/-- The tracking-event-type enumeration, from `vast/models/vast_v2.py`.
Only the values relevant to the factories modelled here are listed in
full; the value strings below follow the source. -/
inductive TrackingEventType where
  | CREATIVE_VIEW
  | START
  | FIRST_QUARTILE
  | MID_POINT
  | THIRD_QUARTILE
  | COMPLETE
  | MUTE
  | UNMUTE
  | PAUSE
  | REWIND
  | RESUME
  | FULL_SCREEN
  | EXPAND
  | COLLAPSE
  | ACCEPT_INVITATION
  | CLOSE
deriving DecidableEq, Repr

/-- The `.value` string of a `MimeType` member, as declared in the source. -/
def MimeType.value : MimeType → String
  | .MP4 => "video/mp4"
  | .JS => "application/javascript"
  | .FLASH => "application/x-shockwave-flash"
  | .WEBM => "video/webm"
  | .GPP => "video/3gpp"
  | .MPEG => "application/x-mpegURL"

/-- The `.value` string of a `Delivery` member, as declared in the source. -/
def Delivery.value : Delivery → String
  | .STREAMING => "streaming"
  | .PROGRESSIVE => "progressive"

/-- The `.value` string of an `ApiFramework` member, as declared in the source. -/
def ApiFramework.value : ApiFramework → String
  | .VPAID => "VPAID"

/-- A raw scalar field value as passed to a factory entry point: callers in
the repository pass strings (from the XML attribute map), already-typed
ints and bools (from tests), or enumeration members. Absence is modelled
by `Option` around `Raw`. -/
inductive Raw where
  | str (s : String)
  | int (n : Int)
  | bool (b : Bool)
  | mime (m : MimeType)
  | delivery (d : Delivery)
  | api (a : ApiFramework)
  | tracking (t : TrackingEventType)
deriving DecidableEq, Repr

/-- Python text rendering of a raw value (the `unicode(...)` conversion,
which does not fail on any scalar the callers supply). -/
def Raw.display : Raw → String
  | .str s => s
  | .int n => toString n
  | .bool b => if b then "True" else "False"
  | .mime m => m.value
  | .delivery d => d.value
  | .api a => a.value
  | .tracking _ => "tracking_event_type"

/-- One individual violation inside an aggregated validation failure,
following the error taxonomy of the construction engine. -/
inductive Violation where
  | missingRequired (field : String)
  | conversionFailure (field : String)
  | exclusionGroup (fields : List String)
  | semanticFailure (msg : String)
deriving DecidableEq, Repr

/-- One aggregated failure for one entity construction attempt: the entity
type name plus the ordered list of violations. -/
structure ValidationError where
  entity : String
  violations : List Violation
deriving DecidableEq, Repr

/-- Modelled from the spec: step 1 of the construction engine
(`check_and_convert` in the absent `vast.models.shared`): for each required
field name, if the raw value is absent, append a missing-required-field
violation; do not stop. `pres` pairs each required field name with its
presence bit. -/
def requiredViolations (pres : List (String × Bool)) : List Violation :=
  (pres.filter (fun p => !p.2)).map (fun p => Violation.missingRequired p.1)

/-- Modelled from the spec: step 2 of the construction engine: attempt to
convert a present raw value into the declared target type; a conversion
failure appends a violation for that field and leaves the field unset. -/
def convertField (conv : Raw → Option α) (name : String) (x : Option Raw) :
    Option α × List Violation :=
  match x with
  | none => (none, [])
  | some r =>
    match conv r with
    | some v => (some v, [])
    | none => (none, [Violation.conversionFailure name])

/-- Modelled from the spec: step 4 of the construction engine: for an
exclusion group, count how many of its field names are present; if the
count exceeds the bound, append one violation naming the group. A group
declared without an explicit bound has bound 1 (tagged choice). -/
def someOfViolations (grp : List (String × Bool)) (upTo : Nat) : List Violation :=
  if upTo < (grp.filter (fun p => p.2)).length then
    [Violation.exclusionGroup (grp.map (fun p => p.1))]
  else []

/-- Modelled from the spec: step 5 of the construction engine
(`validators.validate`, absent from the sources): run every semantic
validator on the fully converted candidate instance, collect all returned
messages, and fail with one aggregated error when any message was
produced. -/
def runValidate (entity : String) (inst : α) (vs : List (α → Option String)) :
    Except ValidationError α :=
  let msgs := vs.filterMap (fun f => f inst)
  if msgs.isEmpty then .ok inst
  else .error ⟨entity, msgs.map Violation.semanticFailure⟩

/-- Modelled from the spec: `validators.make_greater_then_validator`
(absent from the sources): the produced validator reports a violation
unless the named attribute value is strictly greater than the bound; an
absent value is allowed exactly when the per-field `allow_none` flag is
set (the default). -/
def greaterThenValidator (name : String) (bound : Int) (allowNone : Bool)
    (v : Option Int) : Option String :=
  match v with
  | none =>
    if allowNone then none
    else some (name ++ " must be greater than " ++ toString bound ++ " but got None")
  | some x =>
    if bound < x then none
    else some (name ++ " must be greater than " ++ toString bound ++
      " but got " ++ toString x)

/-- `unicode` conversion: total on every raw scalar the callers supply. -/
def convUnicode (r : Raw) : Option String := some r.display

/-- `int` conversion: an int passes through, a string is parsed, a bool
maps to 0/1 (Python `int(bool)`); anything else fails. -/
def convInt : Raw → Option Int
  | .int n => some n
  | .str s => s.toInt?
  | .bool b => some (if b then 1 else 0)
  | _ => none

/-- Boolean parse: a bool passes through, the strings true/false (either
capitalisation) parse; anything else fails. -/
def convBool : Raw → Option Bool
  | .bool b => some b
  | .str s =>
    if s = "true" || s = "True" then some true
    else if s = "false" || s = "False" then some false
    else none
  | _ => none

/-- Enum lookup by value for `MimeType`; an already-typed member passes
through. -/
def convMime : Raw → Option MimeType
  | .mime m => some m
  | .str s =>
    if s = "video/mp4" then some .MP4
    else if s = "application/javascript" then some .JS
    else if s = "application/x-shockwave-flash" then some .FLASH
    else if s = "video/webm" then some .WEBM
    else if s = "video/3gpp" then some .GPP
    else if s = "application/x-mpegURL" then some .MPEG
    else none
  | _ => none

/-- Enum lookup by value for `Delivery`; a member passes through. -/
def convDelivery : Raw → Option Delivery
  | .delivery d => some d
  | .str s =>
    if s = "streaming" then some .STREAMING
    else if s = "progressive" then some .PROGRESSIVE
    else none
  | _ => none

/-- Enum lookup by value for `ApiFramework`; a member passes through. -/
def convApi : Raw → Option ApiFramework
  | .api a => some a
  | .str s => if s = "VPAID" then some .VPAID else none
  | _ => none

/-- Enum lookup by value for `TrackingEventType`; a member passes through.
String lookup is listed for the values exercised by the repository. -/
def convTracking : Raw → Option TrackingEventType
  | .tracking t => some t
  | .str s =>
    if s = "creativeView" then some .CREATIVE_VIEW
    else if s = "start" then some .START
    else if s = "complete" then some .COMPLETE
    else if s = "close" then some .CLOSE
    else none
  | _ => none

/-- `TrackingEvent` entity, from `vast/models/vast_v2.py`. -/
structure TrackingEvent where
  tracking_event_uri : Option String
  tracking_event_type : Option TrackingEventType
deriving DecidableEq, Repr

/-- `MediaFile` entity, from `vast/models/vast_v2.py`. The source field
`maintain_aspect_ratio` is shortened to `maintain_aspect` here. -/
structure MediaFile where
  asset : Option String
  delivery : Option Delivery
  type : Option MimeType
  width : Option Int
  height : Option Int
  codec : Option String
  id : Option String
  bitrate : Option Int
  min_bitrate : Option Int
  max_bitrate : Option Int
  scalable : Option Bool
  maintain_aspect : Option Bool
  api_framework : Option ApiFramework
deriving DecidableEq, Repr

/-- `MediaFile._validate_bitrate`, translated from the source: reports a
message when `bitrate` is absent, or when `bitrate < 0` (note: the source
checks `< 0` although its message says "must be > 0"). -/
def MediaFile.validate_bitrate (inst : MediaFile) : Option String :=
  match inst.bitrate with
  | none => some "media file bitrate cannot be None for progressive media"
  | some b =>
    if b < 0 then some ("media file bitrate must be > 0 but was " ++ toString b)
    else none

/-- `MediaFile._validate_min_max_bitrate`, translated from the source:
collects an absence message per absent bound (the source repeats the
`min_bitrate` wording for the max bound), then checks ordering only when
both bounds are present, and joins the messages with commas. -/
def MediaFile.validate_min_max_bitrate (inst : MediaFile) : Option String :=
  let errors :=
    (match inst.min_bitrate with
     | none => ["media file min_bitrate cannot be None for streaming media"]
     | some _ => []) ++
    (match inst.max_bitrate with
     | none => ["media file min_bitrate cannot be None for streaming media"]
     | some _ => [])
  let errors :=
    if errors.isEmpty then
      match inst.min_bitrate, inst.max_bitrate with
      | some mn, some mx =>
        if mx < mn then
          ["media file min_bitrate=" ++ toString mn ++
            " is greater than max_bitrate=" ++ toString mx]
        else []
      | _, _ => []
    else errors
  if errors.isEmpty then none else some (String.intercalate "," errors)

/-- `MediaFile.VALIDATORS` from the source: width and height strictly
positive. -/
def MediaFile.VALIDATORS : List (MediaFile → Option String) :=
  [fun i => greaterThenValidator "height" 0 true i.height,
   fun i => greaterThenValidator "width" 0 true i.width]

/-- `MediaFile.make`, translated from the source: required-presence check
and conversions (via the engine), then the delivery-mode-dependent
validator selection: flash/javascript MIME types run only the base
validators; progressive delivery adds the bitrate validator; anything else
adds the min/max-bitrate validator. -/
def MediaFile.make
    (asset delivery type_ width height codec id bitrate min_bitrate max_bitrate
      scalable maintain_aspect api_framework : Option Raw) :
    Except ValidationError MediaFile :=
  let req := requiredViolations
    [("asset", asset.isSome), ("delivery", delivery.isSome),
     ("type", type_.isSome), ("width", width.isSome), ("height", height.isSome)]
  let cAsset := convertField convUnicode "asset" asset
  let cCodec := convertField convUnicode "codec" codec
  let cId := convertField convUnicode "id" id
  let cWidth := convertField convInt "width" width
  let cHeight := convertField convInt "height" height
  let cBitrate := convertField convInt "bitrate" bitrate
  let cMin := convertField convInt "min_bitrate" min_bitrate
  let cMax := convertField convInt "max_bitrate" max_bitrate
  let cScal := convertField convBool "scalable" scalable
  let cMar := convertField convBool "maintain_aspect_ratio" maintain_aspect
  let cType := convertField convMime "type" type_
  let cApi := convertField convApi "api_framework" api_framework
  let cDel := convertField convDelivery "delivery" delivery
  let viols := req ++ cAsset.2 ++ cCodec.2 ++ cId.2 ++ cWidth.2 ++ cHeight.2 ++
    cBitrate.2 ++ cMin.2 ++ cMax.2 ++ cScal.2 ++ cMar.2 ++ cType.2 ++
    cApi.2 ++ cDel.2
  if viols.isEmpty then
    let inst : MediaFile :=
      ⟨cAsset.1, cDel.1, cType.1, cWidth.1, cHeight.1, cCodec.1, cId.1,
        cBitrate.1, cMin.1, cMax.1, cScal.1, cMar.1, cApi.1⟩
    let vs :=
      if inst.type = some MimeType.FLASH ∨ inst.type = some MimeType.JS then
        MediaFile.VALIDATORS
      else if inst.delivery = some Delivery.PROGRESSIVE then
        MediaFile.VALIDATORS ++ [MediaFile.validate_bitrate]
      else
        MediaFile.VALIDATORS ++ [MediaFile.validate_min_max_bitrate]
    runValidate "MediaFile" inst vs
  else .error ⟨"MediaFile", viols⟩

/-- The missing-required-field names carried by a violation list. -/
def missingFields (vs : List Violation) : List String :=
  vs.filterMap (fun v =>
    match v with
    | Violation.missingRequired f => some f
    | _ => none)

/-- `VideoClicks` entity, from `vast/models/vast_v2.py`. -/
structure VideoClicks where
  click_through : Option String
  click_tracking : Option String
  custom_click : Option String
deriving DecidableEq, Repr

/-- `AdParameters` entity, from `vast/models/vast_v2.py`. -/
structure AdParameters where
  data : Option String
  xml_encoded : Option Bool
deriving DecidableEq, Repr

/-- `Linear` entity, from `vast/models/vast_v2.py`. Nested children arrive
already constructed, as every caller in the repository passes them. -/
structure Linear where
  duration : Option Int
  media_files : Option (List MediaFile)
  video_clicks : Option VideoClicks
  ad_parameters : Option AdParameters
  tracking_events : Option (List TrackingEvent)
deriving DecidableEq, Repr

/-- `Linear.make`, translated from the source: required `duration` and
`media_files`, an `int` converter for `duration`, then the
`duration > 0` (absence not allowed) validator. -/
def Linear.make
    (duration : Option Raw) (media_files : Option (List MediaFile))
    (video_clicks : Option VideoClicks) (ad_parameters : Option AdParameters)
    (tracking_events : Option (List TrackingEvent)) :
    Except ValidationError Linear :=
  let req := requiredViolations
    [("duration", duration.isSome), ("media_files", media_files.isSome)]
  let cDur := convertField convInt "duration" duration
  let viols := req ++ cDur.2
  if viols.isEmpty then
    let inst : Linear :=
      ⟨cDur.1, media_files, video_clicks, ad_parameters, tracking_events⟩
    runValidate "Linear" inst
      [fun i => greaterThenValidator "duration" 0 false i.duration]
  else .error ⟨"Linear", viols⟩

/-- `StaticResource` entity, from `vast/models/vast_v2.py`. -/
structure StaticResource where
  resource : Option String
  mime_type : Option String
deriving DecidableEq, Repr

/-- `UriWithId` entity, from `vast/models/vast_v2.py`. -/
structure UriWithId where
  resource : Option String
  id : Option String
deriving DecidableEq, Repr

/-- `NonLinearAd` entity, from `vast/models/vast_v2.py`. The source field
`maintain_aspect_ratio` is shortened to `maintain_aspect` here. -/
structure NonLinearAd where
  width : Option Int
  height : Option Int
  expanded_width : Option Int
  expanded_height : Option Int
  scalable : Option Bool
  maintain_aspect : Option Bool
  min_suggested_duration : Option Int
  api_framework : Option ApiFramework
  id : Option String
  static_resource : Option StaticResource
  iframe_resource : Option String
  html_resource : Option String
  non_linear_click_through : Option UriWithId
  ad_parameters : Option AdParameters
deriving DecidableEq, Repr

/-- `NonLinear` entity, from `vast/models/vast_v2.py`. -/
structure NonLinear where
  non_linear_ads : Option (List NonLinearAd)
  tracking_events : Option (List TrackingEvent)
deriving DecidableEq, Repr

/-- `CompanionAd` entity, from `vast/models/vast_v2.py`. -/
structure CompanionAd where
  width : Option Int
  height : Option Int
  expanded_width : Option Int
  expanded_height : Option Int
  api_framework : Option ApiFramework
  id : Option String
  static_resource : Option StaticResource
  iframe_resource : Option String
  html_resource : Option String
  companion_click_through : Option String
  ad_parameters : Option AdParameters
  alt_text : Option String
  tracking_events : Option (List TrackingEvent)
deriving DecidableEq, Repr

/-- `CompanionAd.make`, translated from the source: required `width` and
`height`, plus the unicode/int/api converters. The source declares its
resource group under the attribute name `SOME_OF` rather than `SOME_OFS`,
so the engine never sees it (and its bound of 3 over 3 fields could not
fail anyway); no exclusion check is run. -/
def CompanionAd.make
    (width height expanded_width expanded_height api_framework id : Option Raw)
    (static_resource : Option StaticResource)
    (iframe_resource html_resource companion_click_through : Option Raw)
    (ad_parameters : Option AdParameters) (alt_text : Option Raw)
    (tracking_events : Option (List TrackingEvent)) :
    Except ValidationError CompanionAd :=
  let req := requiredViolations
    [("width", width.isSome), ("height", height.isSome)]
  let cIfr := convertField convUnicode "iframe_resource" iframe_resource
  let cHtml := convertField convUnicode "html_resource" html_resource
  let cId := convertField convUnicode "id" id
  let cAlt := convertField convUnicode "alt_text" alt_text
  let cCct := convertField convUnicode "companion_click_through" companion_click_through
  let cW := convertField convInt "width" width
  let cH := convertField convInt "height" height
  let cEw := convertField convInt "expanded_width" expanded_width
  let cEh := convertField convInt "expanded_height" expanded_height
  let cApi := convertField convApi "api_framework" api_framework
  let viols := req ++ cIfr.2 ++ cHtml.2 ++ cId.2 ++ cAlt.2 ++ cCct.2 ++
    cW.2 ++ cH.2 ++ cEw.2 ++ cEh.2 ++ cApi.2
  if viols.isEmpty then
    .ok ⟨cW.1, cH.1, cEw.1, cEh.1, cApi.1, cId.1, static_resource, cIfr.1,
      cHtml.1, cCct.1, ad_parameters, cAlt.1, tracking_events⟩
  else .error ⟨"CompanionAd", viols⟩

/-- `Companion` entity, from `vast/models/vast_v2.py`. -/
structure Companion where
  companion_ads : Option (List CompanionAd)
deriving DecidableEq, Repr

/-- `Companion.make`, translated from the source: only the required
`companion_ads` check. -/
def Companion.make (companion_ads : Option (List CompanionAd)) :
    Except ValidationError Companion :=
  let req := requiredViolations [("companion_ads", companion_ads.isSome)]
  if req.isEmpty then .ok ⟨companion_ads⟩
  else .error ⟨"Companion", req⟩

/-- `Creative` entity, from `vast/models/vast_v2.py`: three nullable
alternative fields plus attributes. -/
structure Creative where
  linear : Option Linear
  non_linear : Option NonLinear
  companion : Option Companion
  id : Option String
  sequence : Option Int
  ad_id : Option String
  api_framework : Option ApiFramework
deriving DecidableEq, Repr

/-- `Creative.make`, translated from the source: no required fields, an
exclusion group over `linear` and `non_linear` only (the `companion` field
is not part of the declared group), converters for the attributes, then
the `sequence > -1` validator. -/
def Creative.make
    (linear : Option Linear) (non_linear : Option NonLinear)
    (companion : Option Companion)
    (id sequence ad_id api_framework : Option Raw) :
    Except ValidationError Creative :=
  let cId := convertField convUnicode "id" id
  let cAdId := convertField convUnicode "ad_id" ad_id
  let cApi := convertField convApi "api_framework" api_framework
  let cSeq := convertField convInt "sequence" sequence
  let excl := someOfViolations
    [("linear", linear.isSome), ("non_linear", non_linear.isSome)] 1
  let viols := cId.2 ++ cAdId.2 ++ cApi.2 ++ cSeq.2 ++ excl
  if viols.isEmpty then
    let inst : Creative :=
      ⟨linear, non_linear, companion, cId.1, cSeq.1, cAdId.1, cApi.1⟩
    runValidate "Creative" inst
      [fun i => greaterThenValidator "sequence" (-1) true i.sequence]
  else .error ⟨"Creative", viols⟩

/-- `Inline` entity, from `vast/models/vast_v2.py`. -/
structure Inline where
  ad_system : Option String
  ad_title : Option String
  impression : Option String
  creatives : Option (List Creative)
deriving DecidableEq, Repr

/-- `Wrapper` entity, from `vast/models/vast_v2.py`. -/
structure Wrapper where
  ad_system : Option String
  vast_ad_tag_uri : Option String
  ad_title : Option String
  impression : Option String
  error : Option String
  creatives : Option (List Creative)
deriving DecidableEq, Repr

/-- `Ad` entity, from `vast/models/vast_v2.py`: a required `id` and the
two nullable alternatives `wrapper` / `inline`. -/
structure Ad where
  id : Option String
  wrapper : Option Wrapper
  inline : Option Inline
deriving DecidableEq, Repr

/-- `Ad.make`, translated from the source: required `id`, a unicode
converter for `id`, and the exclusion group over `wrapper` and `inline`
(declared without an explicit bound, hence bound 1: a tagged choice). -/
def Ad.make (id : Option Raw) (wrapper : Option Wrapper)
    (inline : Option Inline) : Except ValidationError Ad :=
  let req := requiredViolations [("id", id.isSome)]
  let cId := convertField convUnicode "id" id
  let excl := someOfViolations
    [("wrapper", wrapper.isSome), ("inline", inline.isSome)] 1
  let viols := req ++ cId.2 ++ excl
  if viols.isEmpty then .ok ⟨cId.1, wrapper, inline⟩
  else .error ⟨"Ad", viols⟩

/-- `Ad.make_wrapper`, translated from the source. -/
def Ad.make_wrapper (id : Option Raw) (wrapper : Option Wrapper) :
    Except ValidationError Ad :=
  Ad.make id wrapper none

/-- `Ad.make_inline`, translated from the source. -/
def Ad.make_inline (id : Option Raw) (inline : Option Inline) :
    Except ValidationError Ad :=
  Ad.make id none inline

/-- `Vast` document-root entity, from `vast/models/vast_v2.py`. The
`version` field has no converter in the source, so it keeps the raw value
it was given. -/
structure Vast where
  version : Option Raw
  ad : Option Ad
deriving DecidableEq, Repr

/-- `Vast._validate_version`, translated from the source: a message unless
the version equals the exact string 2.0. -/
def Vast.validate_version (inst : Vast) : Option String :=
  if inst.version = some (Raw.str "2.0") then none
  else some ("version must be 2.0 for vast 2 instance and was " ++
    (match inst.version with
     | some r => r.display
     | none => "None"))

/-- `Vast.make`, translated from the source: required `version` and `ad`,
then the version validator. -/
def Vast.make (version : Option Raw) (ad : Option Ad) :
    Except ValidationError Vast :=
  let req := requiredViolations
    [("version", version.isSome), ("ad", ad.isSome)]
  if req.isEmpty then
    runValidate "Vast" (⟨version, ad⟩ : Vast) [Vast.validate_version]
  else .error ⟨"Vast", req⟩

/-- A small universe of Python runtime types, enough to express the
subtype structure `isinstance` sees: in Python, `bool` is a subclass of
`int`. -/
inductive PyType where
  | int
  | bool
  | str
deriving DecidableEq, Repr

/-- Values of the Python type universe. -/
inductive PyVal where
  | vint (n : Int)
  | vbool (b : Bool)
  | vstr (s : String)
deriving DecidableEq, Repr

/-- The runtime type of a Python value. -/
def PyVal.typeOf : PyVal → PyType
  | .vint _ => .int
  | .vbool _ => .bool
  | .vstr _ => .str

/-- Python subclass relation on this universe: reflexive, and `bool` is a
subclass of `int`. -/
def PyType.subclassOf : PyType → PyType → Bool
  | a, b => a = b || (a = .bool && b = .int)

/-- Python `isinstance`: membership in the type or any of its
subclasses. -/
def isinstance (v : PyVal) (t : PyType) : Bool :=
  v.typeOf.subclassOf t

/-- `validators.make_type_validator`, translated from the source: the
produced validator raises (here: returns a message) exactly when
`isinstance(value, _type)` is false. -/
def make_type_validator (t : PyType) (v : PyVal) (attr_name : String) :
    Option String :=
  if isinstance v t then none
  else some (attr_name ++ " has the wrong type")

/-- Written from the spec wording for comparison (refinement target, not
from the source): a violation unless the value is exactly of type `t`. -/
def typeValidatorSpec (t : PyType) (v : PyVal) (attr_name : String) :
    Option String :=
  if v.typeOf = t then none
  else some (attr_name ++ " has the wrong type")

/-- A node of the generic tree produced by the external XML-to-dict
conversion: a text leaf, a mapping, or a list of children. -/
inductive XmlVal where
  | text (s : String)
  | node (entries : List (String × XmlVal))
  | arr (items : List XmlVal)

/-- Mapping lookup on a generic tree node. -/
def lookupXml (m : List (String × XmlVal)) (k : String) : Option XmlVal :=
  (m.find? (fun p => p.1 = k)).map (fun p => p.2)

/-- Python falsiness of an optional tree value (`if not version`): absent,
empty text, empty mapping and empty list are all falsy. -/
def xmlFalsy : Option XmlVal → Bool
  | none => true
  | some (.text s) => s.isEmpty
  | some (.node es) => es.isEmpty
  | some (.arr xs) => xs.isEmpty

/-- The error raised by the XML entry point (`ParseError` lives in
`vast.parsers.shared`, absent from the sources; it is a plain message
carrier). -/
structure ParseError where
  msg : String
deriving DecidableEq, Repr

/-- Tags for the registered version parsers of `_PARSERS` in
`vast/parsers/xml_parser.py`; the table maps only version 2.0 to
`vast_v2.parse_xml`. -/
inductive RegisteredParser where
  | vastV2
deriving DecidableEq, Repr

/-- The `_PARSERS` table from `vast/parsers/xml_parser.py`. -/
def PARSERS : List (String × RegisteredParser) := [("2.0", .vastV2)]

/-- `from_xml_string`, translated from `vast/parsers/xml_parser.py`, taken
from the point after the external `xmltodict.parse` call: its argument is
the already-materialised root mapping. Success is the dispatch call
`parser(root)`, represented as the chosen parser tag together with the
root it is applied to (the dispatched parser's own behaviour is outside
this entry point). On a present, non-falsy, non-text version value the
source would fault inside the dictionary lookup; under the external
converter an attribute value is always a string, and such inputs are kept
out of the theorems about this definition. -/
def from_xml_root (root : List (String × XmlVal)) :
    Except ParseError (RegisteredParser × List (String × XmlVal)) :=
  match lookupXml root "VAST" with
  | none => .error ⟨"root must have VAST element"⟩
  | some vast =>
    match vast with
    | .node entries =>
      let version := lookupXml entries "@version"
      if xmlFalsy version then
        .error ⟨"missing version attribute in vast element"⟩
      else
        match version with
        | some (.text v) =>
          match PARSERS.find? (fun p => p.1 = v) with
          | some p => .ok (p.2, root)
          | none => .error ⟨"Cannot parse vast version " ++ v⟩
        | _ => .error ⟨"Cannot parse vast version"⟩
    | _ => .error ⟨"vast must have children elements"⟩

/-- A valid media file as in the repository's inline-parsing test (mp4,
progressive, bitrate 300). -/
def sampleMediaFile : Option MediaFile :=
  (MediaFile.make (some (Raw.str "https://www.cdc.gov/flu/video/who-needs-flu-vaccine-15_720px.mp4"))
    (some (Raw.str "progressive")) (some (Raw.str "video/mp4"))
    (some (Raw.int 720)) (some (Raw.int 420)) none none (some (Raw.int 300))
    none none none none none).toOption

/-- A valid linear creative built through the factory from
`sampleMediaFile`, as in the repository's tests. -/
def sampleLinear : Option Linear :=
  sampleMediaFile.bind (fun mf =>
    (Linear.make (some (Raw.int 15)) (some [mf]) none none none).toOption)

/-- A valid companion ad built through the factory. -/
def sampleCompanionAd : Option CompanionAd :=
  (CompanionAd.make (some (Raw.int 100)) (some (Raw.int 200)) none none none
    none none none none none none none none).toOption

/-- A valid companion container built through the factory from
`sampleCompanionAd`. -/
def sampleCompanion : Option Companion :=
  sampleCompanionAd.bind (fun ca => (Companion.make (some [ca])).toOption)

theorem missingFields_append (a b : List Violation) :
    missingFields (a ++ b) = missingFields a ++ missingFields b := by
  simp [missingFields]

theorem missingFields_convertField (conv : Raw → Option α) (n : String)
    (x : Option Raw) : missingFields (convertField conv n x).2 = [] := by
  cases x with
  | none => rfl
  | some r =>
    cases h : conv r <;> simp [convertField, h, missingFields]

theorem missingFields_required (L : List (String × Bool)) :
    missingFields (requiredViolations L) =
      (L.filter (fun p => !p.2)).map Prod.fst := by
  simp [missingFields, requiredViolations, List.filterMap_map, Function.comp]
  exact List.filterMap_eq_map _ ▸ rfl

/-- C2: supplying an `Ad` factory call (with a present id, which the
total unicode conversion always accepts) with both a wrapper and an
inline value fails with exactly one exclusion-group violation; supplying
exactly one of them succeeds, and the constructed entity carries exactly
the supplied alternative. -/
theorem ad_make_tagged_choice (idr : Raw) (w : Wrapper) (inl : Inline) :
    Ad.make (some idr) (some w) (some inl) =
        .error ⟨"Ad", [Violation.exclusionGroup ["wrapper", "inline"]]⟩
    ∧ Ad.make (some idr) (some w) none = .ok ⟨some idr.display, some w, none⟩
    ∧ Ad.make (some idr) none (some inl) =
        .ok ⟨some idr.display, none, some inl⟩ := by
  refine ⟨rfl, rfl, rfl⟩

/-- C10: constructing the document root with any present version value
other than the exact string 2.0 fails with the version violation, for
every supplied ad; and the version validator reports no violation on a
root whose version is exactly 2.0. -/
theorem vast_make_rejects_non_20 (v : Raw) (a : Ad) (h : v ≠ Raw.str "2.0") :
    Vast.make (some v) (some a) =
        .error ⟨"Vast", [Violation.semanticFailure
          ("version must be 2.0 for vast 2 instance and was " ++ v.display)]⟩
    ∧ Vast.validate_version ⟨some (Raw.str "2.0"), some a⟩ = none := by
  constructor
  · simp [Vast.make, requiredViolations, runValidate, Vast.validate_version, h]
  · rfl

theorem vast_make_rejects_non_20_witness :
    (Raw.str "3.0" ≠ Raw.str "2.0")
    ∧ (Vast.make (some (Raw.str "3.0")) (some ⟨some "ad1", none, none⟩) =
        .error ⟨"Vast", [Violation.semanticFailure
          ("version must be 2.0 for vast 2 instance and was " ++
            (Raw.str "3.0").display)]⟩
      ∧ Vast.validate_version ⟨some (Raw.str "2.0"), some ⟨some "ad1", none, none⟩⟩ = none) :=
  ⟨by decide, vast_make_rejects_non_20 (Raw.str "3.0") ⟨some "ad1", none, none⟩ (by decide)⟩

/-- C6 (amended): the validator produced by `make_type_validator` for `T`
accepts a value exactly when the value's runtime type is `T` or a
subclass of `T` (in this universe, `bool` is a subclass of `int`); it is
the `isinstance` check, not an exact-type check. -/
theorem make_type_validator_is_isinstance (t : PyType) (v : PyVal) (n : String) :
    make_type_validator t v n = none ↔
      (v.typeOf = t ∨ (v.typeOf = PyType.bool ∧ t = PyType.int)) := by
  cases t <;> cases v <;>
    simp [make_type_validator, isinstance, PyType.subclassOf, PyVal.typeOf]

/-- C6 counterexample: `True` has runtime type `bool`, a proper subtype of
`int`, yet the validator produced for `int` reports no violation on it,
while the spec-worded exact-type validator does. -/
theorem make_type_validator_exact_counterexample :
    make_type_validator PyType.int (PyVal.vbool true) "flag" = none
    ∧ typeValidatorSpec PyType.int (PyVal.vbool true) "flag" ≠ none
    ∧ (PyVal.vbool true).typeOf ≠ PyType.int := by
  refine ⟨rfl, by decide, by decide⟩

/-- C5 (amended): a successfully constructed `Creative` never carries both
`linear` and `non_linear` at once (their exclusion group has bound 1);
`companion` is outside the declared group and may accompany either, and a
creative may also carry none of the three. -/
theorem creative_never_both_linear_and_non_linear
    (linear : Option Linear) (non_linear : Option NonLinear)
    (companion : Option Companion) (id sequence ad_id api_framework : Option Raw)
    (c : Creative)
    (h : Creative.make linear non_linear companion id sequence ad_id api_framework
      = .ok c) :
    ¬(c.linear.isSome = true ∧ c.non_linear.isSome = true) := by
  rintro ⟨h1, h2⟩
  unfold Creative.make at h
  dsimp only at h
  split at h
  case isTrue hempty =>
    unfold runValidate at h
    dsimp only at h
    split at h
    case isTrue =>
      rw [Except.ok.injEq] at h
      subst h
      simp only at h1 h2
      rw [h1, h2] at hempty
      simp [someOfViolations, List.filter, List.isEmpty_iff,
        List.append_eq_nil] at hempty
    case isFalse => exact absurd h (by simp)
  case isFalse => exact absurd h (by simp)

theorem creative_never_both_witness :
    (Creative.make none none none none none none none =
      .ok ⟨none, none, none, none, none, none, none⟩)
    ∧ ¬((Creative.mk none none none none none none none).linear.isSome = true
        ∧ (Creative.mk none none none none none none none).non_linear.isSome = true) :=
  ⟨rfl, creative_never_both_linear_and_non_linear none none none none none none none
    ⟨none, none, none, none, none, none, none⟩ rfl⟩

/-- C5 counterexample: the factory accepts a creative carrying BOTH a
(fully factory-validated) linear and a companion alternative — two of the
three alternatives present at once — and also accepts a creative with all
three alternatives absent. -/
theorem creative_exactly_one_counterexample :
    sampleLinear.isSome = true
    ∧ sampleCompanion.isSome = true
    ∧ Creative.make sampleLinear none sampleCompanion none none none none =
        .ok ⟨sampleLinear, none, sampleCompanion, none, none, none, none⟩
    ∧ Creative.make none none none none none none none =
        .ok ⟨none, none, none, none, none, none, none⟩ := by
  refine ⟨rfl, rfl, rfl, rfl⟩

/-- C1: a `MediaFile` construction call with any number of absent required
fields fails with a single aggregated error whose missing-required-field
violations are exactly one per absent required field (all distinct), not
only the first one encountered. -/
theorem mediaFile_make_aggregates_missing
    (asset delivery type_ width height codec id bitrate min_bitrate max_bitrate
      scalable maintain_aspect api_framework : Option Raw)
    (h : asset.isSome = false ∨ delivery.isSome = false ∨ type_.isSome = false
      ∨ width.isSome = false ∨ height.isSome = false) :
    ∃ e, MediaFile.make asset delivery type_ width height codec id bitrate
        min_bitrate max_bitrate scalable maintain_aspect api_framework = .error e
      ∧ missingFields e.violations =
          (([("asset", asset.isSome), ("delivery", delivery.isSome),
            ("type", type_.isSome), ("width", width.isSome),
            ("height", height.isSome)].filter (fun p => !p.2)).map Prod.fst)
      ∧ (missingFields e.violations).Nodup := by
  have hreq : requiredViolations [("asset", asset.isSome),
      ("delivery", delivery.isSome), ("type", type_.isSome),
      ("width", width.isSome), ("height", height.isSome)] ≠ [] := by
    have hmem : ∃ p, p ∈ [("asset", asset.isSome), ("delivery", delivery.isSome),
        ("type", type_.isSome), ("width", width.isSome),
        ("height", height.isSome)] ∧ p.2 = false := by
      rcases h with h | h | h | h | h
      · exact ⟨("asset", asset.isSome), by simp, h⟩
      · exact ⟨("delivery", delivery.isSome), by simp, h⟩
      · exact ⟨("type", type_.isSome), by simp, h⟩
      · exact ⟨("width", width.isSome), by simp, h⟩
      · exact ⟨("height", height.isSome), by simp, h⟩
    obtain ⟨p, hp, hp2⟩ := hmem
    have : Violation.missingRequired p.1 ∈ requiredViolations [("asset", asset.isSome),
        ("delivery", delivery.isSome), ("type", type_.isSome),
        ("width", width.isSome), ("height", height.isSome)] :=
      List.mem_map_of_mem _ (List.mem_filter.mpr ⟨hp, by simp [hp2]⟩)
    exact List.ne_nil_of_mem this
  unfold MediaFile.make
  dsimp only
  split
  case isTrue hempty =>
    exfalso
    apply hreq
    have hnil := List.isEmpty_iff.mp hempty
    simp only [List.append_eq_nil] at hnil
    exact hnil.1.1.1.1.1.1.1.1.1.1.1.1.1
  case isFalse =>
    refine ⟨_, rfl, ?_, ?_⟩
    · simp only [missingFields_append, missingFields_convertField,
        missingFields_required, List.append_nil]
    · simp only [missingFields_append, missingFields_convertField,
        missingFields_required, List.append_nil]
      have hsub : List.Sublist
          ((List.filter (fun p => !p.2) [("asset", asset.isSome),
            ("delivery", delivery.isSome), ("type", type_.isSome),
            ("width", width.isSome), ("height", height.isSome)]).map Prod.fst)
          (List.map Prod.fst [("asset", asset.isSome), ("delivery", delivery.isSome),
            ("type", type_.isSome), ("width", width.isSome),
            ("height", height.isSome)]) :=
        (List.filter_sublist _).map Prod.fst
      have hnd : (List.map Prod.fst [("asset", asset.isSome),
          ("delivery", delivery.isSome), ("type", type_.isSome),
          ("width", width.isSome), ("height", height.isSome)]).Nodup := by
        have hfst : List.map Prod.fst [("asset", asset.isSome),
            ("delivery", delivery.isSome), ("type", type_.isSome),
            ("width", width.isSome), ("height", height.isSome)] =
            ["asset", "delivery", "type", "width", "height"] := rfl
        rw [hfst]
        decide
      exact List.Nodup.sublist hsub hnd

theorem mediaFile_make_aggregates_missing_witness :
    ((none : Option Raw).isSome = false ∨ (some (Raw.str "progressive") : Option Raw).isSome = false
      ∨ (none : Option Raw).isSome = false ∨ (some (Raw.int 300) : Option Raw).isSome = false
      ∨ (none : Option Raw).isSome = false)
    ∧ ∃ e, MediaFile.make none (some (Raw.str "progressive")) none
        (some (Raw.int 300)) none none none none none none none none none = .error e
      ∧ missingFields e.violations = ["asset", "type", "height"]
      ∧ (missingFields e.violations).Nodup :=
  ⟨Or.inl rfl,
    mediaFile_make_aggregates_missing none (some (Raw.str "progressive")) none
      (some (Raw.int 300)) none none none none none none none none none
      (Or.inl rfl)⟩

theorem intercalate_singleton (s x : String) : String.intercalate s [x] = x := rfl

/-- C3 (amended): for a media-file with progressive delivery whose MIME
type is neither flash nor javascript (those skip the bitrate validators)
and valid remaining fields, construction succeeds exactly when the bitrate
is present and non-negative (the source checks `bitrate < 0`, accepting
zero, although its own message demands `> 0`); with no bitrate it fails
with precisely the bitrate-required violation. -/
theorem mediaFile_progressive_requires_bitrate
    (asset : Raw) (m : MimeType) (wd hg : Int) (bitrate : Option Int)
    (hm : m ≠ MimeType.FLASH ∧ m ≠ MimeType.JS) (hw : 0 < wd) (hh : 0 < hg) :
    ((MediaFile.make (some asset) (some (Raw.delivery Delivery.PROGRESSIVE))
        (some (Raw.mime m)) (some (Raw.int wd)) (some (Raw.int hg)) none none
        (bitrate.map Raw.int) none none none none none).isOk = true
      ↔ ∃ b, bitrate = some b ∧ 0 ≤ b)
    ∧ MediaFile.make (some asset) (some (Raw.delivery Delivery.PROGRESSIVE))
        (some (Raw.mime m)) (some (Raw.int wd)) (some (Raw.int hg)) none none
        none none none none none none =
      .error ⟨"MediaFile", [Violation.semanticFailure
        "media file bitrate cannot be None for progressive media"]⟩ := by
  obtain ⟨hm1, hm2⟩ := hm
  constructor
  · cases bitrate with
    | none =>
      simp [MediaFile.make, requiredViolations, convertField, convUnicode,
        convInt, convMime, convDelivery, MediaFile.VALIDATORS, runValidate, Except.isOk, Except.toBool,
        greaterThenValidator, MediaFile.validate_bitrate, hm1, hm2, hw, hh]
    | some b =>
      by_cases hb : b < 0
      · have hb' : ¬(0 ≤ b) := by omega
        simp [MediaFile.make, requiredViolations, convertField, convUnicode,
          convInt, convMime, convDelivery, MediaFile.VALIDATORS, runValidate, Except.isOk, Except.toBool,
          greaterThenValidator, MediaFile.validate_bitrate, hm1, hm2, hw, hh,
          hb, hb']
      · have hb' : 0 ≤ b := by omega
        simp [MediaFile.make, requiredViolations, convertField, convUnicode,
          convInt, convMime, convDelivery, MediaFile.VALIDATORS, runValidate, Except.isOk, Except.toBool,
          greaterThenValidator, MediaFile.validate_bitrate, hm1, hm2, hw, hh,
          hb, hb']
  · simp [MediaFile.make, requiredViolations, convertField, convUnicode,
      convInt, convMime, convDelivery, MediaFile.VALIDATORS, runValidate, Except.isOk, Except.toBool,
      greaterThenValidator, MediaFile.validate_bitrate, hm1, hm2, hw, hh]

theorem mediaFile_progressive_requires_bitrate_witness :
    ((MimeType.MP4 ≠ MimeType.FLASH ∧ MimeType.MP4 ≠ MimeType.JS)
      ∧ (0 : Int) < 720 ∧ (0 : Int) < 420)
    ∧ (((MediaFile.make (some (Raw.str "https://www.cdc.gov/flu/video/who-needs-flu-vaccine-15_720px.mp4"))
        (some (Raw.delivery Delivery.PROGRESSIVE)) (some (Raw.mime MimeType.MP4))
        (some (Raw.int 720)) (some (Raw.int 420)) none none
        ((some (300 : Int)).map Raw.int) none none none none none).isOk = true
      ↔ ∃ b, (some (300 : Int)) = some b ∧ 0 ≤ b)
    ∧ MediaFile.make (some (Raw.str "https://www.cdc.gov/flu/video/who-needs-flu-vaccine-15_720px.mp4"))
        (some (Raw.delivery Delivery.PROGRESSIVE)) (some (Raw.mime MimeType.MP4))
        (some (Raw.int 720)) (some (Raw.int 420)) none none
        none none none none none none =
      .error ⟨"MediaFile", [Violation.semanticFailure
        "media file bitrate cannot be None for progressive media"]⟩) :=
  ⟨⟨⟨by decide, by decide⟩, by decide, by decide⟩,
    mediaFile_progressive_requires_bitrate _ MimeType.MP4 720 420 (some 300)
      ⟨by decide, by decide⟩ (by decide) (by decide)⟩

/-- C3 counterexample: two progressive media files the factory accepts
although the claim requires a present, strictly positive bitrate: a
javascript-MIME progressive media file with no bitrate at all (as in the
repository's own multi-media-file test), and an mp4 progressive media
file with bitrate exactly 0. -/
theorem mediaFile_progressive_counterexample :
    MediaFile.make (some (Raw.str "https://vpaid.dv.com/js/vpaid-wrapper-dv.js"))
        (some (Raw.str "progressive")) (some (Raw.str "application/javascript"))
        (some (Raw.int 176)) (some (Raw.int 144)) none none none none none
        none none none =
      .ok ⟨some "https://vpaid.dv.com/js/vpaid-wrapper-dv.js",
        some Delivery.PROGRESSIVE, some MimeType.JS, some 176, some 144,
        none, none, none, none, none, none, none, none⟩
    ∧ MediaFile.make (some (Raw.str "a")) (some (Raw.str "progressive"))
        (some (Raw.str "video/mp4")) (some (Raw.int 300)) (some (Raw.int 250))
        none none (some (Raw.int 0)) none none none none none =
      .ok ⟨some "a", some Delivery.PROGRESSIVE, some MimeType.MP4, some 300,
        some 250, none, none, some 0, none, none, none, none, none⟩ :=
  ⟨rfl, rfl⟩

/-- C4 (amended): for a media-file with streaming delivery whose MIME type
is neither flash nor javascript (those skip the bitrate validators) and
valid remaining fields, construction succeeds exactly when both min- and
max-bitrate are present with min ≤ max; an unordered present pair fails
with precisely the ordered-pair violation. -/
theorem mediaFile_streaming_requires_ordered_minmax
    (asset : Raw) (m : MimeType) (wd hg : Int) (mn mx : Option Int)
    (hm : m ≠ MimeType.FLASH ∧ m ≠ MimeType.JS) (hw : 0 < wd) (hh : 0 < hg) :
    ((MediaFile.make (some asset) (some (Raw.delivery Delivery.STREAMING))
        (some (Raw.mime m)) (some (Raw.int wd)) (some (Raw.int hg)) none none
        none (mn.map Raw.int) (mx.map Raw.int) none none none).isOk = true
      ↔ ∃ a b, mn = some a ∧ mx = some b ∧ a ≤ b)
    ∧ (∀ a b, mn = some a → mx = some b → b < a →
        MediaFile.make (some asset) (some (Raw.delivery Delivery.STREAMING))
          (some (Raw.mime m)) (some (Raw.int wd)) (some (Raw.int hg)) none none
          none (mn.map Raw.int) (mx.map Raw.int) none none none =
        .error ⟨"MediaFile", [Violation.semanticFailure
          ("media file min_bitrate=" ++ toString a ++
            " is greater than max_bitrate=" ++ toString b)]⟩) := by
  obtain ⟨hm1, hm2⟩ := hm
  constructor
  · cases mn with
    | none =>
      cases mx with
      | none =>
        simp [MediaFile.make, requiredViolations, convertField, convUnicode,
          convInt, convMime, convDelivery, MediaFile.VALIDATORS, runValidate, Except.isOk, Except.toBool,
          greaterThenValidator, MediaFile.validate_min_max_bitrate, hm1, hm2, hw, hh]
      | some b =>
        simp [MediaFile.make, requiredViolations, convertField, convUnicode,
          convInt, convMime, convDelivery, MediaFile.VALIDATORS, runValidate, Except.isOk, Except.toBool,
          greaterThenValidator, MediaFile.validate_min_max_bitrate, hm1, hm2, hw, hh]
    | some a =>
      cases mx with
      | none =>
        simp [MediaFile.make, requiredViolations, convertField, convUnicode,
          convInt, convMime, convDelivery, MediaFile.VALIDATORS, runValidate, Except.isOk, Except.toBool,
          greaterThenValidator, MediaFile.validate_min_max_bitrate, hm1, hm2, hw, hh]
      | some b =>
        by_cases hab : b < a
        · have hab' : ¬(a ≤ b) := by omega
          simp [MediaFile.make, requiredViolations, convertField, convUnicode,
            convInt, convMime, convDelivery, MediaFile.VALIDATORS, runValidate, Except.isOk, Except.toBool,
            greaterThenValidator, MediaFile.validate_min_max_bitrate, hm1, hm2,
            hw, hh, hab, hab']
        · have hab' : a ≤ b := by omega
          simp [MediaFile.make, requiredViolations, convertField, convUnicode,
            convInt, convMime, convDelivery, MediaFile.VALIDATORS, runValidate, Except.isOk, Except.toBool,
            greaterThenValidator, MediaFile.validate_min_max_bitrate, hm1, hm2,
            hw, hh, hab, hab']
  · rintro a b rfl rfl hab
    simp [MediaFile.make, requiredViolations, convertField, convUnicode,
      convInt, convMime, convDelivery, MediaFile.VALIDATORS, runValidate, Except.isOk, Except.toBool,
      greaterThenValidator, MediaFile.validate_min_max_bitrate,
      intercalate_singleton, hm1, hm2, hw, hh, hab]

theorem mediaFile_streaming_requires_ordered_minmax_witness :
    ((MimeType.GPP ≠ MimeType.FLASH ∧ MimeType.GPP ≠ MimeType.JS)
      ∧ (0 : Int) < 176 ∧ (0 : Int) < 144)
    ∧ (((MediaFile.make (some (Raw.str "https://dv.2mdn.net/videoplayback/id/f5316658i7/file.3gpp"))
        (some (Raw.delivery Delivery.STREAMING)) (some (Raw.mime MimeType.GPP))
        (some (Raw.int 176)) (some (Raw.int 144)) none none none
        ((some (51 : Int)).map Raw.int) ((some (900 : Int)).map Raw.int)
        none none none).isOk = true
      ↔ ∃ a b, (some (51 : Int)) = some a ∧ (some (900 : Int)) = some b ∧ a ≤ b)
    ∧ (∀ a b, (some (51 : Int)) = some a → (some (900 : Int)) = some b → b < a →
        MediaFile.make (some (Raw.str "https://dv.2mdn.net/videoplayback/id/f5316658i7/file.3gpp"))
          (some (Raw.delivery Delivery.STREAMING)) (some (Raw.mime MimeType.GPP))
          (some (Raw.int 176)) (some (Raw.int 144)) none none none
          ((some (51 : Int)).map Raw.int) ((some (900 : Int)).map Raw.int)
          none none none =
        .error ⟨"MediaFile", [Violation.semanticFailure
          ("media file min_bitrate=" ++ toString a ++
            " is greater than max_bitrate=" ++ toString b)]⟩)) :=
  ⟨⟨⟨by decide, by decide⟩, by decide, by decide⟩,
    mediaFile_streaming_requires_ordered_minmax _ MimeType.GPP 176 144
      (some 51) (some 900) ⟨by decide, by decide⟩ (by decide) (by decide)⟩

/-- C4 counterexample: a streaming media file with javascript MIME type
and no min/max bitrate at all is accepted by the factory, though the
claim requires every streaming media file to carry an ordered pair. -/
theorem mediaFile_streaming_counterexample :
    MediaFile.make (some (Raw.str "a")) (some (Raw.str "streaming"))
        (some (Raw.str "application/javascript")) (some (Raw.int 176))
        (some (Raw.int 144)) none none none none none none none none =
      .ok ⟨some "a", some Delivery.STREAMING, some MimeType.JS, some 176,
        some 144, none, none, none, none, none, none, none, none⟩ := rfl

/-- C8: a media file whose MIME type is flash or javascript runs neither
bitrate validator, whatever its delivery mode: with positive width and
height it constructs successfully for any combination of absent or
present bitrate, min-bitrate and max-bitrate values. -/
theorem mediaFile_flash_js_skips_bitrate_validators
    (asset : Raw) (m : MimeType) (d : Delivery) (wd hg : Int)
    (bitrate mn mx : Option Int)
    (hm : m = MimeType.FLASH ∨ m = MimeType.JS) (hw : 0 < wd) (hh : 0 < hg) :
    MediaFile.make (some asset) (some (Raw.delivery d)) (some (Raw.mime m))
        (some (Raw.int wd)) (some (Raw.int hg)) none none (bitrate.map Raw.int)
        (mn.map Raw.int) (mx.map Raw.int) none none none =
      .ok ⟨some asset.display, some d, some m, some wd, some hg, none, none,
        bitrate, mn, mx, none, none, none⟩ := by
  cases bitrate <;> cases mn <;> cases mx <;>
    rcases hm with rfl | rfl <;>
    simp [MediaFile.make, requiredViolations, convertField, convUnicode,
      convInt, convMime, convDelivery, MediaFile.VALIDATORS, runValidate,
      Except.isOk, greaterThenValidator, hw, hh]

theorem mediaFile_flash_js_skips_bitrate_validators_witness :
    ((MimeType.JS = MimeType.FLASH ∨ MimeType.JS = MimeType.JS)
      ∧ (0 : Int) < 176 ∧ (0 : Int) < 144)
    ∧ MediaFile.make (some (Raw.str "https://vpaid.dv.com/js/vpaid-wrapper-dv.js"))
        (some (Raw.delivery Delivery.STREAMING)) (some (Raw.mime MimeType.JS))
        (some (Raw.int 176)) (some (Raw.int 144)) none none
        ((none : Option Int).map Raw.int)
        (((some (900 : Int)) : Option Int).map Raw.int)
        (((some (51 : Int)) : Option Int).map Raw.int) none none none =
      .ok ⟨some (Raw.str "https://vpaid.dv.com/js/vpaid-wrapper-dv.js").display,
        some Delivery.STREAMING, some MimeType.JS, some 176, some 144, none,
        none, none, some 900, some 51, none, none, none⟩ :=
  ⟨⟨Or.inr rfl, by decide, by decide⟩,
    mediaFile_flash_js_skips_bitrate_validators _ MimeType.JS Delivery.STREAMING
      176 144 none (some 900) (some 51) (Or.inr rfl) (by decide) (by decide)⟩

/-- C9: the XML entry point dispatches to the registered VAST 2.0 parser,
applied to the whole parsed root, exactly when the root mapping carries a
`VAST` key whose value is a mapping whose `@version` attribute is the
exact (non-empty) string 2.0 — the only version in the parser table; in
every other case (no `VAST` key, a non-mapping `VAST` node, an absent or
empty or otherwise falsy version, or an unregistered version) it fails
with a `ParseError`. -/
theorem from_xml_root_dispatch (root : List (String × XmlVal)) :
    (from_xml_root root = .ok (RegisteredParser.vastV2, root)
      ↔ ∃ entries, lookupXml root "VAST" = some (XmlVal.node entries)
          ∧ lookupXml entries "@version" = some (XmlVal.text "2.0"))
    ∧ ((∃ e, from_xml_root root = .error e)
      ↔ ¬∃ entries, lookupXml root "VAST" = some (XmlVal.node entries)
          ∧ lookupXml entries "@version" = some (XmlVal.text "2.0")) := by
  cases hv : lookupXml root "VAST" with
  | none => simp [from_xml_root, hv]
  | some vast =>
    cases vast with
    | text s => simp [from_xml_root, hv]
    | arr xs => simp [from_xml_root, hv]
    | node entries =>
      cases hv2 : lookupXml entries "@version" with
      | none => simp [from_xml_root, hv, hv2, xmlFalsy]
      | some version =>
        cases version with
        | node es =>
          cases es with
          | nil => simp [from_xml_root, hv, hv2, xmlFalsy]
          | cons e es' => simp [from_xml_root, hv, hv2, xmlFalsy]
        | arr xs =>
          cases xs with
          | nil => simp [from_xml_root, hv, hv2, xmlFalsy]
          | cons x xs' => simp [from_xml_root, hv, hv2, xmlFalsy]
        | text s =>
          by_cases hs : s = "2.0"
          · subst hs
            simp [from_xml_root, hv, hv2, xmlFalsy, PARSERS, List.find?,
              show "2.0".isEmpty = false from rfl]
          · have hse : ¬(XmlVal.text s = XmlVal.text "2.0") := by
              simpa using hs
            by_cases hemp : s.isEmpty
            · simp [from_xml_root, hv, hv2, xmlFalsy, hemp, hs, hse]
            · simp [from_xml_root, hv, hv2, xmlFalsy, hemp, hs, hse,
                PARSERS, List.find?, Ne.symm hs]

end VastModel

